import Mathlib

/-!
Shallow embedding of the rust-smart-fhir launch-transaction and token-lifecycle
state machine (src/state.rs, src/smart/token.rs, src/smart/configuration.rs,
src/launch.rs, src/callback.rs).

Conventions of the embedding:
* Rust `HashMap` becomes an association map with insert-overwrites and
  remove-returns-value semantics; stateful methods on `State` are explicit
  state-passing functions.
* `std::time::Instant` becomes a `Nat` time stamp; `Instant::now()` becomes an
  explicit `now` parameter threaded through the functions that read the clock.
* Every outbound HTTP request (token exchange, token refresh) is modelled by an
  `Option TokenResponse` oracle parameter: `none` is a transport/parse failure,
  `some r` is a successfully parsed 2xx body. Functions additionally report how
  many outbound requests they issued.
* A Rust panic (`expect`/`unwrap`) is modelled as a distinguished result
  (`Option.none` for `TokenContents.refresh`, `PostResult.panicked` for
  `Token.post`), never silently conflated with an `Err` return.
-/

set_option maxHeartbeats 1000000

/-- Association map modelling Rust's `HashMap`: `insert` overwrites the previous
binding of the key, `remove` deletes the binding and returns the removed value. -/
structure AssocMap (κ ν : Type) where
  entries : List (κ × ν)
  deriving DecidableEq

/-- First value bound to `k`, if any. -/
def lookupEntries {κ ν : Type} [DecidableEq κ] : List (κ × ν) → κ → Option ν
  | [], _ => none
  | (k', v) :: rest, k => if k = k' then some v else lookupEntries rest k

def AssocMap.lookup {κ ν : Type} [DecidableEq κ] (m : AssocMap κ ν) (k : κ) : Option ν :=
  lookupEntries m.entries k

def AssocMap.eraseKey {κ ν : Type} [DecidableEq κ] (m : AssocMap κ ν) (k : κ) : AssocMap κ ν :=
  ⟨m.entries.filter fun p => decide (p.1 ≠ k)⟩

def AssocMap.insert {κ ν : Type} [DecidableEq κ] (m : AssocMap κ ν) (k : κ) (v : ν) :
    AssocMap κ ν :=
  ⟨(k, v) :: (m.eraseKey k).entries⟩

/-- `HashMap::remove`: the removed value (if present) together with the map
without the key. -/
def AssocMap.remove {κ ν : Type} [DecidableEq κ] (m : AssocMap κ ν) (k : κ) :
    Option ν × AssocMap κ ν :=
  (m.lookup k, m.eraseKey k)

def AssocMap.empty {κ ν : Type} : AssocMap κ ν := ⟨[]⟩

/-- A 128-bit UUID (the `uuid` crate's `Uuid`), modelled by its numeric value. -/
structure Uuid where
  val : Nat
  deriving DecidableEq

def hexVal (c : Char) : Option Nat :=
  if '0' ≤ c ∧ c ≤ '9' then some (c.toNat - '0'.toNat)
  else if 'a' ≤ c ∧ c ≤ 'f' then some (10 + c.toNat - 'a'.toNat)
  else if 'A' ≤ c ∧ c ≤ 'F' then some (10 + c.toNat - 'A'.toNat)
  else none

def parseHexAux : List Char → Nat → Option Nat
  | [], acc => some acc
  | c :: rest, acc =>
    match hexVal c with
    | some d => parseHexAux rest (acc * 16 + d)
    | none => none

/-- Split a string at every occurrence of the character `c` (the semantics of
Rust's `str::split(c)`: adjacent separators and boundary separators produce
empty fragments). -/
def splitOnCharAux (c : Char) : List Char → List Char → List String
  | [], acc => [String.mk acc.reverse]
  | x :: rest, acc =>
    if x = c then String.mk acc.reverse :: splitOnCharAux c rest []
    else splitOnCharAux c rest (x :: acc)

def splitOnChar (c : Char) (s : String) : List String :=
  splitOnCharAux c s.toList []

/-- `Uuid::parse_str`: accepts the canonical hyphenated 8-4-4-4-12 hex form and
the simple 32-hex-digit form (the urn- and brace-wrapped forms of the `uuid`
crate are omitted; no claim distinguishes them from the canonical forms). -/
def Uuid.parse (s : String) : Option Uuid :=
  match splitOnChar '-' s with
  | [a, b, c, d, e] =>
    if a.length = 8 ∧ b.length = 4 ∧ c.length = 4 ∧ d.length = 4 ∧ e.length = 12 then
      (parseHexAux (a ++ b ++ c ++ d ++ e).toList 0).map Uuid.mk
    else none
  | [a] =>
    if a.length = 32 then (parseHexAux a.toList 0).map Uuid.mk else none
  | _ => none

def padLeftZeros (l : List Char) (n : Nat) : List Char :=
  List.replicate (n - l.length) '0' ++ l

/-- `Uuid::to_string`: lowercase hyphenated 8-4-4-4-12 hex rendering. -/
def Uuid.toString (u : Uuid) : String :=
  let h := padLeftZeros (Nat.toDigits 16 u.val) 32
  String.mk (h.take 8) ++ "-" ++ String.mk ((h.drop 8).take 4) ++ "-"
    ++ String.mk ((h.drop 12).take 4) ++ "-" ++ String.mk ((h.drop 16).take 4) ++ "-"
    ++ String.mk (h.drop 20)

/-- `oauth2::PkceCodeChallenge`: the base64url-encoded SHA-256 digest of the
verifier, modelled by its string value. -/
structure PkceCodeChallenge where
  value : String
  deriving DecidableEq

def PkceCodeChallenge.as_str (c : PkceCodeChallenge) : String := c.value

/-- `oauth2::PkceCodeVerifier`: the high-entropy secret, modelled by its string
value. -/
structure PkceCodeVerifier where
  secretValue : String
  deriving DecidableEq

def PkceCodeVerifier.secret (v : PkceCodeVerifier) : String := v.secretValue

/-- `Endpoint` from src/smart/configuration.rs. -/
structure Endpoint where
  url : String
  capabilities : List String
  deriving DecidableEq

/-- `SmartConfiguration` from src/smart/configuration.rs: the parsed
`.well-known/smart-configuration` document. -/
structure SmartConfiguration where
  issuer : Option String
  jwks_url : Option String
  authorization_endpoint : Option String
  grant_types_supported : List String
  token_endpoint : String
  token_endpoint_auth_methods_supported : List String
  registration_endpoint : Option String
  smart_app_state_endpoint : Option String
  associated_endpoints : Option Endpoint
  user_access_brand_bundle : Option String
  user_access_brand_identifier : Option String
  scopes_supported : List String
  response_types_supported : List String
  management_endpoint : Option String
  introspection_endpoint : Option String
  revocation_endpoint : Option String
  capabilities : List String
  code_challenge_methods_supported : List String
  deriving DecidableEq

/-- UTF-8 encoding of a single character, as a list of byte values. -/
def utf8Bytes (c : Char) : List Nat :=
  let n := c.toNat
  if n < 128 then [n]
  else if n < 2048 then [192 + n / 64, 128 + n % 64]
  else if n < 65536 then [224 + n / 4096, 128 + n / 64 % 64, 128 + n % 64]
  else [240 + n / 262144, 128 + n / 4096 % 64, 128 + n / 64 % 64, 128 + n % 64]

def stringBytes (s : String) : List Nat :=
  s.toList.foldr (fun c acc => utf8Bytes c ++ acc) []

def base64Chars : List Char :=
  "ABCDEFGHIJKLMNOPQRSTUVWXYZabcdefghijklmnopqrstuvwxyz0123456789+/".toList

def base64Char (n : Nat) : Char := base64Chars.getD n 'A'

/-- Standard (padded) base64 of a byte sequence, as used by
`BASE64_STANDARD.encode`. -/
def base64EncodeBytes : List Nat → List Char
  | [] => []
  | [a] => [base64Char (a / 4), base64Char (a % 4 * 16), '=', '=']
  | [a, b] => [base64Char (a / 4), base64Char (a % 4 * 16 + b / 16), base64Char (b % 16 * 4), '=']
  | a :: b :: c :: rest =>
    base64Char (a / 4) :: base64Char (a % 4 * 16 + b / 16)
      :: base64Char (b % 16 * 4 + c / 64) :: base64Char (c % 64) :: base64EncodeBytes rest

def base64Encode (s : String) : String :=
  String.mk (base64EncodeBytes (stringBytes s))

/-- `TokenContents` from src/smart/token.rs: the core token fields. -/
structure TokenContents where
  access_token : String
  scopes : List String
  expires_at : Nat
  refresh_token : Option String
  id_token : Option String
  deriving DecidableEq

/-- `TokenResponse` from src/smart/token.rs: the parsed body of a successful
token-endpoint response. -/
structure TokenResponse where
  access_token : String
  token_type : String
  expires_in : Nat
  scope : String
  refresh_token : Option String
  id_token : Option String
  patient : String
  authorization_details : Option String
  deriving DecidableEq

/-- `Token` from src/smart/token.rs. The `reqwest_client` field (an HTTP
transport handle carrying no data) is omitted. -/
structure Token where
  smart_configuration : SmartConfiguration
  base64_secret : String
  token : TokenContents
  patient : String
  iss : String
  deriving DecidableEq

/-- `State` from src/state.rs (the `reqwest_client` transport handle is
omitted). `ShareableToken` is `Arc<RwLock<Token>>`; in this sequential
embedding the tokens map stores the `Token` directly. -/
structure State where
  app_domain : String
  client_id : String
  client_secret : String
  pkce : AssocMap Uuid (PkceCodeChallenge × PkceCodeVerifier)
  smart_configurations : AssocMap String SmartConfiguration
  iss : AssocMap Uuid String
  tokens : AssocMap String Token
  deriving DecidableEq

def State.new (app_domain client_id client_secret : String) : State :=
  { app_domain := app_domain, client_id := client_id, client_secret := client_secret,
    pkce := AssocMap.empty, smart_configurations := AssocMap.empty,
    iss := AssocMap.empty, tokens := AssocMap.empty }

/-- `State::base64_secret`: base64 of "client_id:client_secret". -/
def State.base64_secret (st : State) : String :=
  base64Encode (st.client_id ++ ":" ++ st.client_secret)

/-- `State::callback`: the callback URL for this app. -/
def State.callback (st : State) : String := st.app_domain ++ "/callback"

def State.put_iss (st : State) (state : Uuid) (iss : String) : State :=
  { st with iss := st.iss.insert state iss }

def State.get_iss (st : State) (state : Uuid) : Option String × State :=
  let r := st.iss.remove state
  (r.1, { st with iss := r.2 })

def State.put_config (st : State) (iss : String) (config : SmartConfiguration) : State :=
  { st with smart_configurations := st.smart_configurations.insert iss config }

/-- `State::put_iss_and_config`: store the issuer keyed by the launch UUID and
the configuration keyed by the issuer URL. -/
def State.put_iss_and_config (st : State) (state : Uuid) (iss : String)
    (config : SmartConfiguration) : State :=
  (st.put_iss state iss).put_config iss config

/-- `State::get_iss_and_config`: removes the issuer entry for the launch UUID
(single use) and pairs it with the cached configuration for that issuer. -/
def State.get_iss_and_config (st : State) (state : Uuid) :
    Option (String × SmartConfiguration) × State :=
  let r := st.get_iss state
  match r.1 with
  | some iss => ((r.2.smart_configurations.lookup iss).map fun config => (iss, config), r.2)
  | none => (none, r.2)

def State.put_pkce (st : State) (state : Uuid) (challenge : PkceCodeChallenge)
    (verifier : PkceCodeVerifier) : State :=
  { st with pkce := st.pkce.insert state (challenge, verifier) }

/-- `State::get_pkce`: removes and returns the PKCE pair for the launch UUID
(single use). -/
def State.get_pkce (st : State) (state : Uuid) :
    Option (PkceCodeChallenge × PkceCodeVerifier) × State :=
  let r := st.pkce.remove state
  (r.1, { st with pkce := r.2 })

/-- `State::put_token`: stores a token keyed by its patient id. -/
def State.put_token (st : State) (token : Token) : State :=
  { st with tokens := st.tokens.insert token.patient token }

def State.get_token (st : State) (patient_id : String) : Option Token :=
  st.tokens.lookup patient_id

/-- `TokenContents::split_scopes`: Rust `scope.split(' ')`. -/
def TokenContents.split_scopes (scope : String) : List String :=
  splitOnChar ' ' scope

/-- `TokenContents::expiration`: `Instant::now() + Duration::from_secs(expires_in)`,
with the clock passed explicitly. -/
def TokenContents.expiration (now : Nat) (expires_in : Nat) : Nat :=
  now + expires_in

def TokenContents.from_response (response : TokenResponse) (now : Nat) : TokenContents :=
  { access_token := response.access_token,
    scopes := TokenContents.split_scopes response.scope,
    expires_at := TokenContents.expiration now response.expires_in,
    refresh_token := response.refresh_token,
    id_token := response.id_token }

/-- `TokenContents::has_expired`: `Instant::now() > self.expires_at` (strict). -/
def TokenContents.has_expired (t : TokenContents) (now : Nat) : Bool :=
  decide (now > t.expires_at)

def TokenContents.can_refresh (t : TokenContents) : Bool :=
  t.refresh_token.isSome

/-- `TokenContents::refresh`. The `expect` on a missing refresh token is a Rust
panic, modelled as result `none`; otherwise exactly one outbound request is
issued, whose outcome the oracle parameter supplies: a successfully parsed
response produces a wholesale-new `TokenContents`, a transport or parse failure
produces `Except.error`. -/
def TokenContents.refresh (t : TokenContents) (outcome : Option TokenResponse) (now : Nat) :
    Option (Except Unit TokenContents) :=
  match t.refresh_token with
  | none => none
  | some _ =>
    match outcome with
    | some response => some (Except.ok (TokenContents.from_response response now))
    | none => some (Except.error ())

/-- Byte validity test of `http::HeaderValue::from_str`: tab, or any byte that
is ≥ 32 and not DEL. The check is stated per character, which gives the same
verdict as the per-UTF-8-byte check of the `http` crate: characters below 32
and DEL are invalid either way, and every byte of a multi-byte character lies
in 128..=255, which is valid. -/
def validHeaderByte (b : Nat) : Bool :=
  decide (b = 9 ∨ (32 ≤ b ∧ b ≠ 127))

def headerValueFromStr (s : String) : Option String :=
  if s.toList.all (fun c => validHeaderByte c.toNat) then some s else none

/-- `Token::auth_header`: formats the header value from the current token
contents (note the source bakes the string "AUTHORIZATION: " into the value). -/
def Token.auth_header (tok : Token) : Option String :=
  headerValueFromStr ("AUTHORIZATION: Bearer " ++ tok.token.access_token)

/-- `Token::needs_refresh`. -/
def Token.needs_refresh (tok : Token) (now : Nat) : Bool :=
  tok.token.has_expired now && tok.token.can_refresh

/-- `Token::refresh_token` (the method): install a wholesale-new field set. -/
def Token.refresh_token (tok : Token) (contents : TokenContents) : Token :=
  { tok with token := contents }

/-- `ShareableToken::authenticate` (the `LoginManager` hook), sequentially:
check `needs_refresh` under the read lock; when a refresh is needed, issue the
refresh call (its outcome supplied by the oracle), install the new contents
under the write lock only on success, and finally build the header from a fresh
read. The result is `none` when the refresh panicked (unreachable: see C9),
and otherwise carries the updated token, the header result, and the number of
outbound refresh requests issued. -/
def ShareableToken.authenticate (tok : Token) (now : Nat) (outcome : Option TokenResponse) :
    Option (Token × Option String × Nat) :=
  if tok.needs_refresh now then
    match TokenContents.refresh tok.token outcome now with
    | none => none
    | some (Except.ok refreshed) =>
      let tok2 := tok.refresh_token refreshed
      some (tok2, tok2.auth_header, 1)
    | some (Except.error _) => some (tok, tok.auth_header, 1)
  else
    some (tok, tok.auth_header, 0)

/-- Result of `Token::post`: a parsed token, a transport/parse error, or the
panic of the `unwrap` on a configuration with no issuer. -/
inductive PostResult where
  | ok (token : Token)
  | err
  | panicked
  deriving DecidableEq

/-- `Token::post`: exchange an authorization code for a token. The outbound
POST's outcome is supplied by the oracle parameter; on success the token is
marshalled from the response, with `iss` taken from the configuration's issuer
(`unwrap` panics when the issuer is absent). -/
def Token.post (smart_configuration : SmartConfiguration) (code : String)
    (verifier : PkceCodeVerifier) (data : State)
    (outcome : Option TokenResponse) (now : Nat) : PostResult :=
  match outcome with
  | none => PostResult.err
  | some response =>
    match smart_configuration.issuer with
    | some issuerUrl =>
      PostResult.ok
        { smart_configuration := smart_configuration,
          base64_secret := data.base64_secret,
          patient := response.patient,
          iss := issuerUrl,
          token := TokenContents.from_response response now }
    | none => PostResult.panicked

/-- HTTP statuses produced by the callback handler in src/callback.rs. -/
inductive CallbackStatus where
  | ok
  | badRequest
  | forbidden
  | internalServerError
  deriving DecidableEq

/-- Observable outcome of one `callback` invocation: the HTTP response
(`none` when `Token::post` panicked and no response was produced), the state
after the handler ran, and an effect trace — how many PKCE-map lookups,
issuer-map lookups and outbound token-exchange requests were performed, and
whether a token record was written to the token store. -/
structure CallbackOutcome where
  response : Option CallbackStatus
  st : State
  pkce_lookups : Nat
  iss_lookups : Nat
  post_calls : Nat
  token_written : Bool
  deriving DecidableEq

/-- The `callback` handler from src/callback.rs: parse the `state` query
parameter as a UUID (400 on failure, before any store lookup), destructively
fetch the PKCE pair (400 when absent), destructively fetch the issuer and
configuration (500 when absent), exchange the code (403 on failure), and store
the resulting token (200). -/
def callback (data : State) (code stateParam : String) (outcome : Option TokenResponse)
    (now : Nat) : CallbackOutcome :=
  match Uuid.parse stateParam with
  | some state =>
    let r1 := data.get_pkce state
    match r1.1 with
    | some pair =>
      let r2 := r1.2.get_iss_and_config state
      match r2.1 with
      | some issConfig =>
        match Token.post issConfig.2 code pair.2 r2.2 outcome now with
        | PostResult.ok token =>
          { response := some CallbackStatus.ok, st := r2.2.put_token token,
            pkce_lookups := 1, iss_lookups := 1, post_calls := 1, token_written := true }
        | PostResult.err =>
          { response := some CallbackStatus.forbidden, st := r2.2,
            pkce_lookups := 1, iss_lookups := 1, post_calls := 1, token_written := false }
        | PostResult.panicked =>
          { response := none, st := r2.2,
            pkce_lookups := 1, iss_lookups := 1, post_calls := 1, token_written := false }
      | none =>
        { response := some CallbackStatus.internalServerError, st := r2.2,
          pkce_lookups := 1, iss_lookups := 1, post_calls := 0, token_written := false }
    | none =>
      { response := some CallbackStatus.badRequest, st := r1.2,
        pkce_lookups := 1, iss_lookups := 0, post_calls := 0, token_written := false }
  | none =>
    { response := some CallbackStatus.badRequest, st := data,
      pkce_lookups := 0, iss_lookups := 0, post_calls := 0, token_written := false }

/-- The `url_builder::URLBuilder` used by `authorize_url`: plain string
assembly, no percent-encoding. -/
structure URLBuilder where
  protocol : String
  host : String
  routes : List String
  params : List (String × String)
  deriving DecidableEq

def URLBuilder.new : URLBuilder :=
  { protocol := "", host := "", routes := [], params := [] }

def URLBuilder.set_protocol (ub : URLBuilder) (p : String) : URLBuilder :=
  { ub with protocol := p }

def URLBuilder.set_host (ub : URLBuilder) (h : String) : URLBuilder :=
  { ub with host := h }

def URLBuilder.add_route (ub : URLBuilder) (r : String) : URLBuilder :=
  { ub with routes := ub.routes ++ [r] }

def URLBuilder.add_param (ub : URLBuilder) (k v : String) : URLBuilder :=
  { ub with params := ub.params ++ [(k, v)] }

def URLBuilder.build (ub : URLBuilder) : String :=
  ub.protocol ++ "://" ++ ub.host ++ String.join (ub.routes.map fun r => "/" ++ r)
    ++ "?" ++ String.intercalate "&" (ub.params.map fun p => p.1 ++ "=" ++ p.2)

/-- Rust `str::trim_matches(c)`: strip every leading and trailing `c`. -/
def trimMatches (s : String) (c : Char) : String :=
  String.mk (((s.toList.dropWhile fun x => decide (x = c)).reverse.dropWhile
    fun x => decide (x = c)).reverse)

/-- The components of a parsed absolute URL consumed by `authorize_url`
(`url::Url` is an external crate; only `scheme()`, `host_str().unwrap_or("")`
and `path()` are read). -/
structure ParsedUrl where
  scheme : String
  host : String
  path : String
  deriving DecidableEq

/-- `desired_scopes` from src/launch.rs. -/
def desired_scopes : List String :=
  ["patient/Patient.read", "patient/Observation.read", "launch", "launch/patient",
   "online_access", "openid", "profile"]

/-- The `URLBuilder` value assembled by `authorize_url` in src/launch.rs
(protocol/host/route from the parsed authorization endpoint, then the chained
`add_param` calls in source order). -/
def authorize_builder (data : State) (base_url : ParsedUrl) (iss launch_id code_challenge : String)
    (state : Uuid) : URLBuilder :=
  URLBuilder.new
    |>.set_protocol base_url.scheme
    |>.set_host base_url.host
    |>.add_route (trimMatches base_url.path '/')
    |>.add_param "response_type" "code"
    |>.add_param "client_id" data.client_id
    |>.add_param "redirect_uri" data.callback
    |>.add_param "launch" launch_id
    |>.add_param "state" state.toString
    |>.add_param "aud" iss
    |>.add_param "code_challenge" code_challenge
    |>.add_param "code_challenge_method" "S256"
    |>.add_param "scope" (String.intercalate "+" desired_scopes)

/-- `authorize_url` from src/launch.rs. -/
def authorize_url (data : State) (base_url : ParsedUrl) (iss launch_id code_challenge : String)
    (state : Uuid) : String :=
  (authorize_builder data base_url iss launch_id code_challenge state).build

/-- HTTP responses produced by the launch handler (bodies omitted). -/
inductive LaunchResponse where
  | seeOther (location : String)
  | internalServerError
  | notImplemented
  deriving DecidableEq

/-- The `launch` handler from src/launch.rs. The discovery fetch's outcome is
supplied by the `discovery` oracle, `Url::parse` of the authorization endpoint
by the `urlParse` oracle, and the randomly generated PKCE pair and state UUID
are explicit parameters. -/
def launch (data : State) (iss launchId : String)
    (discovery : Option SmartConfiguration)
    (urlParse : String → Option ParsedUrl)
    (pkce_challenge : PkceCodeChallenge) (pkce_verifier : PkceCodeVerifier)
    (state : Uuid) : LaunchResponse × State :=
  match discovery with
  | none => (LaunchResponse.internalServerError, data)
  | some smart_configuration =>
    match smart_configuration.authorization_endpoint with
    | none => (LaunchResponse.notImplemented, data)
    | some authorization_endpoint =>
      match urlParse authorization_endpoint with
      | none => (LaunchResponse.internalServerError, data)
      | some auth_url =>
        let data1 := data.put_iss_and_config state iss smart_configuration
        let data2 := data1.put_pkce state pkce_challenge pkce_verifier
        (LaunchResponse.seeOther
          (authorize_url data2 auth_url iss launchId pkce_challenge.as_str state), data2)

/-! Concrete values used to instantiate the theorems below. -/

def sampleIssuerConfig : SmartConfiguration :=
  { issuer := some "https://ehr.example",
    jwks_url := none,
    authorization_endpoint := some "https://ehr.example/auth",
    grant_types_supported := ["authorization_code"],
    token_endpoint := "https://ehr.example/token",
    token_endpoint_auth_methods_supported := ["client_secret_basic"],
    registration_endpoint := none,
    smart_app_state_endpoint := none,
    associated_endpoints := none,
    user_access_brand_bundle := none,
    user_access_brand_identifier := none,
    scopes_supported := ["launch", "patient/Patient.read"],
    response_types_supported := ["code"],
    management_endpoint := none,
    introspection_endpoint := none,
    revocation_endpoint := none,
    capabilities := ["launch-ehr"],
    code_challenge_methods_supported := ["S256"] }

def sampleUuid : Uuid := Uuid.mk 0

def sampleUuidString : String := "00000000-0000-0000-0000-000000000000"

def unknownUuidString : String := "11111111-1111-1111-1111-111111111111"

def sampleChallenge : PkceCodeChallenge := PkceCodeChallenge.mk "CHAL"

def sampleVerifier : PkceCodeVerifier := PkceCodeVerifier.mk "VERIF"

def sampleLaunchState : State := State.new "http://localhost:8080" "cid" "csec"

/-- The state as it stands after a launch that minted `sampleUuid`. -/
def sampleReadyState : State :=
  (sampleLaunchState.put_iss_and_config sampleUuid "https://ehr.example"
    sampleIssuerConfig).put_pkce sampleUuid sampleChallenge sampleVerifier

def sampleTokenResponse : TokenResponse :=
  { access_token := "abc", token_type := "Bearer", expires_in := 3600,
    scope := "launch patient/Patient.read", refresh_token := none, id_token := none,
    patient := "p123", authorization_details := none }

/-- A token record whose expiry is in the past and which has no refresh token. -/
def sampleStaleToken : Token :=
  { smart_configuration := sampleIssuerConfig, base64_secret := "c2VjcmV0",
    token := { access_token := "abc", scopes := ["launch"], expires_at := 9,
               refresh_token := none, id_token := none },
    patient := "p123", iss := "https://ehr.example" }

/-- A token record whose expiry is in the past and which has a refresh token. -/
def sampleRefreshableToken : Token :=
  { smart_configuration := sampleIssuerConfig, base64_secret := "c2VjcmV0",
    token := { access_token := "abc", scopes := ["launch"], expires_at := 9,
               refresh_token := some "rt", id_token := none },
    patient := "p123", iss := "https://ehr.example" }

def sampleAuthUrl : ParsedUrl :=
  { scheme := "https", host := "ehr.example", path := "/auth" }

/-- A concrete `Url::parse` oracle that parses the sample authorization
endpoint into its components. -/
def sampleUrlParse (s : String) : Option ParsedUrl :=
  if s = "https://ehr.example/auth" then some sampleAuthUrl else none

/-! Helper lemmas about the association map. -/

theorem lookupEntries_filterNe {κ ν : Type} [DecidableEq κ] (l : List (κ × ν)) (k : κ) :
    lookupEntries (l.filter fun p => decide (p.1 ≠ k)) k = none := by
  induction l with
  | nil => rfl
  | cons h t ih =>
    obtain ⟨k', v⟩ := h
    by_cases hk : k' = k
    · simpa [List.filter, hk] using ih
    · have ih2 : lookupEntries (List.filter (fun p => !decide (p.1 = k)) t) k = none := by
        simpa using ih
      simp [List.filter, hk, lookupEntries, Ne.symm hk, ih2]

theorem AssocMap.lookup_eraseKey_self {κ ν : Type} [DecidableEq κ] (m : AssocMap κ ν) (k : κ) :
    (m.eraseKey k).lookup k = none := by
  simpa [AssocMap.lookup, AssocMap.eraseKey] using lookupEntries_filterNe m.entries k

theorem AssocMap.lookup_insert_self {κ ν : Type} [DecidableEq κ] (m : AssocMap κ ν) (k : κ)
    (v : ν) : (m.insert k v).lookup k = some v := by
  simp [AssocMap.insert, AssocMap.lookup, lookupEntries]

/-- C1: single-use transaction consumption. For any state after the launch
handler stored the issuer+configuration (`put_iss_and_config`) and the PKCE
pair (`put_pkce`) under a correlation identifier, the first `get_pkce` returns
the stored challenge/verifier pair and the first `get_iss_and_config` returns
the stored issuer and configuration; repeating either call on the resulting
state returns `none`; and on any state whose stores never held an identifier,
both consumption calls return `none`. -/
theorem claim_c1_single_use_consumption (s : State) (u : Uuid) (issUrl : String)
    (cfg : SmartConfiguration) (ch : PkceCodeChallenge) (ver : PkceCodeVerifier) :
    ((((s.put_iss_and_config u issUrl cfg).put_pkce u ch ver).get_pkce u).1 = some (ch, ver))
    ∧ (((((s.put_iss_and_config u issUrl cfg).put_pkce u ch ver).get_pkce u).2.get_pkce u).1
        = none)
    ∧ ((((s.put_iss_and_config u issUrl cfg).put_pkce u ch ver).get_iss_and_config u).1
        = some (issUrl, cfg))
    ∧ (((((s.put_iss_and_config u issUrl cfg).put_pkce u ch ver).get_iss_and_config
          u).2.get_iss_and_config u).1 = none)
    ∧ (∀ t : State, ∀ w : Uuid, t.pkce.lookup w = none → (t.get_pkce w).1 = none)
    ∧ (∀ t : State, ∀ w : Uuid, t.iss.lookup w = none → (t.get_iss_and_config w).1 = none) := by
  refine ⟨?_, ?_, ?_, ?_, ?_, ?_⟩
  · simp [State.put_iss_and_config, State.put_iss, State.put_config, State.put_pkce,
      State.get_pkce, AssocMap.remove, AssocMap.lookup_insert_self]
  · simp [State.put_iss_and_config, State.put_iss, State.put_config, State.put_pkce,
      State.get_pkce, AssocMap.remove, AssocMap.lookup_eraseKey_self]
  · simp [State.put_iss_and_config, State.put_iss, State.put_config, State.put_pkce,
      State.get_iss_and_config, State.get_iss, AssocMap.remove,
      AssocMap.lookup_insert_self]
  · simp [State.put_iss_and_config, State.put_iss, State.put_config, State.put_pkce,
      State.get_iss_and_config, State.get_iss, AssocMap.remove,
      AssocMap.lookup_insert_self, AssocMap.lookup_eraseKey_self]
  · intro t w h
    simp [State.get_pkce, AssocMap.remove, h]
  · intro t w h
    simp [State.get_iss_and_config, State.get_iss, AssocMap.remove, h]

/-- C1 witness: the consumption properties at a concrete launch. -/
theorem claim_c1_witness :
    ((sampleReadyState.get_pkce sampleUuid).1 = some (sampleChallenge, sampleVerifier))
    ∧ (((sampleReadyState.get_pkce sampleUuid).2.get_pkce sampleUuid).1 = none)
    ∧ ((sampleReadyState.get_iss_and_config sampleUuid).1
        = some ("https://ehr.example", sampleIssuerConfig))
    ∧ (((sampleReadyState.get_iss_and_config sampleUuid).2.get_iss_and_config sampleUuid).1
        = none)
    ∧ ((sampleLaunchState.get_pkce sampleUuid).1 = none)
    ∧ ((sampleLaunchState.get_iss_and_config sampleUuid).1 = none) := by
  have h := claim_c1_single_use_consumption sampleLaunchState sampleUuid "https://ehr.example"
    sampleIssuerConfig sampleChallenge sampleVerifier
  exact ⟨h.1, h.2.1, h.2.2.1, h.2.2.2.1,
    h.2.2.2.2.1 sampleLaunchState sampleUuid (by decide),
    h.2.2.2.2.2 sampleLaunchState sampleUuid (by decide)⟩

/-- C2 (amended): for a token record whose `expires_at` is in the past and
whose `refresh_token` is `None`, `authenticate` issues zero outbound HTTP
requests and returns the stale authorization header of the unchanged record;
it does not report any error — the code has no `AuthenticationUnavailable`
path (failure is deferred to the downstream API call). -/
theorem claim_c2_expired_without_refresh (tok : Token) (now : Nat)
    (outcome : Option TokenResponse)
    (hexp : tok.token.expires_at < now) (hnor : tok.token.refresh_token = none) :
    ShareableToken.authenticate tok now outcome = some (tok, tok.auth_header, 0) := by
  have h : tok.needs_refresh now = false := by
    simp [Token.needs_refresh, TokenContents.can_refresh, hnor]
  simp [ShareableToken.authenticate, h]

/-- C2 counterexample: at a concrete record expired without a refresh token,
`authenticate` returns a successful header with zero outbound requests — it
does not return the error the claim asserts (no `AuthenticationUnavailable`,
nor any other error, is produced). -/
theorem claim_c2_counterexample :
    ShareableToken.authenticate sampleStaleToken 10 none
      = some (sampleStaleToken, some "AUTHORIZATION: Bearer abc", 0) := by decide

/-- C2 witness: the amended claim at a concrete expired-without-refresh record. -/
theorem claim_c2_witness :
    sampleStaleToken.token.expires_at < 10
    ∧ sampleStaleToken.token.refresh_token = none
    ∧ ShareableToken.authenticate sampleStaleToken 10 (some sampleTokenResponse)
        = some (sampleStaleToken, sampleStaleToken.auth_header, 0) :=
  ⟨by decide, rfl,
    claim_c2_expired_without_refresh sampleStaleToken 10 (some sampleTokenResponse)
      (by decide) rfl⟩

/-- C3: refresh-failure atomicity. When a refresh is needed but the refresh
network call fails, `authenticate` leaves every field of the stored token
record unchanged (the write step is skipped) and still returns the header
built from the old access token; exactly one outbound request was issued. -/
theorem claim_c3_refresh_failure_atomic (tok : Token) (now : Nat)
    (h : tok.needs_refresh now = true) :
    ShareableToken.authenticate tok now none = some (tok, tok.auth_header, 1) := by
  obtain ⟨rt, hrt⟩ : ∃ rt, tok.token.refresh_token = some rt := by
    have hc : tok.token.can_refresh = true := by
      have h2 := h
      simp [Token.needs_refresh, Bool.and_eq_true] at h2
      exact h2.2
    simpa [TokenContents.can_refresh, Option.isSome_iff_exists] using hc
  simp [ShareableToken.authenticate, h, TokenContents.refresh, hrt]

/-- C3 witness: refresh failure at a concrete expired-with-refresh record. -/
theorem claim_c3_witness :
    sampleRefreshableToken.needs_refresh 10 = true
    ∧ ShareableToken.authenticate sampleRefreshableToken 10 none
        = some (sampleRefreshableToken, sampleRefreshableToken.auth_header, 1) :=
  ⟨by decide, claim_c3_refresh_failure_atomic sampleRefreshableToken 10 (by decide)⟩

/-- C4 (code bug): at a concrete token record with access token "abc",
`auth_header` produces the header value "AUTHORIZATION: Bearer abc" — the
header name is baked into the value — and not the value "Bearer abc" that the
claim (and the SMART-on-FHIR protocol) requires. -/
theorem claim_c4_header_value :
    sampleRefreshableToken.auth_header
      = some ("AUTHORIZATION: Bearer " ++ sampleRefreshableToken.token.access_token)
    ∧ sampleRefreshableToken.auth_header
      ≠ some ("Bearer " ++ sampleRefreshableToken.token.access_token) := by
  exact ⟨by decide, by decide⟩

/-- C5: `needs_refresh` is true iff the current time is strictly past the
stored expiry and a refresh token is present; in particular an expired record
without a refresh token reports `needs_refresh = false`. -/
theorem claim_c5_needs_refresh_iff (tok : Token) (now : Nat) :
    (tok.needs_refresh now = true
      ↔ (tok.token.expires_at < now ∧ tok.token.refresh_token.isSome = true))
    ∧ (tok.token.refresh_token = none → tok.needs_refresh now = false) := by
  constructor
  · simp [Token.needs_refresh, TokenContents.has_expired, TokenContents.can_refresh,
      Bool.and_eq_true, gt_iff_lt]
  · intro h
    simp [Token.needs_refresh, TokenContents.can_refresh, h]

/-- C5 witness: a concrete expired record without refresh token reports
`needs_refresh = false`. -/
theorem claim_c5_witness :
    sampleStaleToken.token.refresh_token = none
    ∧ sampleStaleToken.needs_refresh 10 = false :=
  ⟨rfl, (claim_c5_needs_refresh_iff sampleStaleToken 10).2 rfl⟩

/-- C9: refresh-panic unreachability. `TokenContents.refresh` panics (the
`expect`) exactly when the record has no refresh token; `needs_refresh = true`
forces a present refresh token; therefore `authenticate` never reaches the
panic, for every token state, clock value and network outcome. -/
theorem claim_c9_refresh_panic_unreachable (tok : Token) (now : Nat)
    (outcome : Option TokenResponse) :
    (tok.token.refresh_token = none → TokenContents.refresh tok.token outcome now = none)
    ∧ (tok.needs_refresh now = true → tok.token.refresh_token.isSome = true)
    ∧ (ShareableToken.authenticate tok now outcome).isSome = true := by
  refine ⟨?_, ?_, ?_⟩
  · intro h
    simp [TokenContents.refresh, h]
  · intro h
    simp [Token.needs_refresh, TokenContents.can_refresh, Bool.and_eq_true] at h
    exact h.2
  · by_cases h : tok.needs_refresh now = true
    · obtain ⟨rt, hrt⟩ : ∃ rt, tok.token.refresh_token = some rt := by
        have hc : tok.token.can_refresh = true := by
          have h2 := h
          simp [Token.needs_refresh, Bool.and_eq_true] at h2
          exact h2.2
        simpa [TokenContents.can_refresh, Option.isSome_iff_exists] using hc
      cases outcome <;> simp [ShareableToken.authenticate, h, TokenContents.refresh, hrt]
    · simp [ShareableToken.authenticate, h]

/-- C9 witness: the panic branch at a concrete non-refreshable record, and the
absence of a panic under `authenticate` at a concrete refresh-needing record. -/
theorem claim_c9_witness :
    sampleStaleToken.token.refresh_token = none
    ∧ TokenContents.refresh sampleStaleToken.token none 10 = none
    ∧ sampleRefreshableToken.needs_refresh 10 = true
    ∧ sampleRefreshableToken.token.refresh_token.isSome = true
    ∧ (ShareableToken.authenticate sampleRefreshableToken 10 none).isSome = true :=
  ⟨rfl, (claim_c9_refresh_panic_unreachable sampleStaleToken 10 none).1 rfl, by decide,
    (claim_c9_refresh_panic_unreachable sampleRefreshableToken 10 none).2.1 (by decide),
    (claim_c9_refresh_panic_unreachable sampleRefreshableToken 10 none).2.2⟩

/-- C6: token issuance parsing. For every successfully parsed token-endpoint
response, `Token::post` produces a token record whose subject is the
response's `patient` field, whose scopes are the response's `scope` string
split on single spaces, and whose `expires_at` is the absolute instant
`now + expires_in` (receipt time plus the advertised lifetime), with the
optional refresh and identity tokens carried over. -/
theorem claim_c6_token_issuance (cfg : SmartConfiguration) (issuerUrl : String)
    (code : String) (ver : PkceCodeVerifier) (st : State) (r : TokenResponse) (now : Nat)
    (hiss : cfg.issuer = some issuerUrl) :
    Token.post cfg code ver st (some r) now = PostResult.ok
      { smart_configuration := cfg,
        base64_secret := st.base64_secret,
        patient := r.patient,
        iss := issuerUrl,
        token := { access_token := r.access_token,
                   scopes := splitOnChar ' ' r.scope,
                   expires_at := now + r.expires_in,
                   refresh_token := r.refresh_token,
                   id_token := r.id_token } } := by
  simp [Token.post, hiss, TokenContents.from_response, TokenContents.split_scopes,
    TokenContents.expiration]

/-- C6 witness: the spec's scenario — scope "launch patient/Patient.read",
patient "p123" and expires_in 3600 yield subject p123, scopes
{launch, patient/Patient.read}, and expiry now + 3600. -/
theorem claim_c6_witness :
    sampleIssuerConfig.issuer = some "https://ehr.example"
    ∧ Token.post sampleIssuerConfig "authcode" sampleVerifier sampleLaunchState
        (some sampleTokenResponse) 1000
      = PostResult.ok
        { smart_configuration := sampleIssuerConfig,
          base64_secret := sampleLaunchState.base64_secret,
          patient := "p123",
          iss := "https://ehr.example",
          token := { access_token := "abc",
                     scopes := ["launch", "patient/Patient.read"],
                     expires_at := 4600,
                     refresh_token := none,
                     id_token := none } } := by
  refine ⟨rfl, ?_⟩
  have h := claim_c6_token_issuance sampleIssuerConfig "https://ehr.example" "authcode"
    sampleVerifier sampleLaunchState sampleTokenResponse 1000 rfl
  rw [h]
  decide

/-- C7 (amended): on a successful launch the handler answers with a redirect
whose Location is the authorization URL assembled from the parsed
authorization endpoint (its scheme, host, and slash-trimmed path), carrying
exactly the query parameters response_type=code, client_id, redirect_uri (this
application's callback URL), launch (passed through), state (the minted
correlation identifier), aud (the issuer URL), code_challenge,
code_challenge_method=S256, and scope equal to the fixed list of requested
scopes joined by "+" characters (the query-string encoding of spaces), in that
order. -/
theorem claim_c7_redirect_parameters (data : State) (issUrl launchId : String)
    (cfg : SmartConfiguration) (endpointUrl : String) (auth_url : ParsedUrl)
    (urlParse : String → Option ParsedUrl)
    (ch : PkceCodeChallenge) (ver : PkceCodeVerifier) (u : Uuid)
    (hend : cfg.authorization_endpoint = some endpointUrl)
    (hparse : urlParse endpointUrl = some auth_url) :
    ((launch data issUrl launchId (some cfg) urlParse ch ver u).1
      = LaunchResponse.seeOther
          (authorize_url ((data.put_iss_and_config u issUrl cfg).put_pkce u ch ver)
            auth_url issUrl launchId ch.as_str u))
    ∧ ((authorize_builder ((data.put_iss_and_config u issUrl cfg).put_pkce u ch ver)
          auth_url issUrl launchId ch.as_str u).protocol = auth_url.scheme)
    ∧ ((authorize_builder ((data.put_iss_and_config u issUrl cfg).put_pkce u ch ver)
          auth_url issUrl launchId ch.as_str u).host = auth_url.host)
    ∧ ((authorize_builder ((data.put_iss_and_config u issUrl cfg).put_pkce u ch ver)
          auth_url issUrl launchId ch.as_str u).routes = [trimMatches auth_url.path '/'])
    ∧ ((authorize_builder ((data.put_iss_and_config u issUrl cfg).put_pkce u ch ver)
          auth_url issUrl launchId ch.as_str u).params
        = [("response_type", "code"), ("client_id", data.client_id),
           ("redirect_uri", data.app_domain ++ "/callback"), ("launch", launchId),
           ("state", u.toString), ("aud", issUrl), ("code_challenge", ch.as_str),
           ("code_challenge_method", "S256"),
           ("scope",
            "patient/Patient.read+patient/Observation.read+launch+launch/patient+online_access+openid+profile")]) := by
  have hscope : String.intercalate "+" desired_scopes
      = "patient/Patient.read+patient/Observation.read+launch+launch/patient+online_access+openid+profile" := by
    decide
  refine ⟨?_, ?_, ?_, ?_, ?_⟩
  · simp [launch, hend, hparse]
  · simp [authorize_builder, URLBuilder.new, URLBuilder.set_protocol, URLBuilder.set_host,
      URLBuilder.add_route, URLBuilder.add_param]
  · simp [authorize_builder, URLBuilder.new, URLBuilder.set_protocol, URLBuilder.set_host,
      URLBuilder.add_route, URLBuilder.add_param]
  · simp [authorize_builder, URLBuilder.new, URLBuilder.set_protocol, URLBuilder.set_host,
      URLBuilder.add_route, URLBuilder.add_param]
  · simp [authorize_builder, URLBuilder.new, URLBuilder.set_protocol, URLBuilder.set_host,
      URLBuilder.add_route, URLBuilder.add_param, State.callback, State.put_iss_and_config,
      State.put_iss, State.put_config, State.put_pkce, hscope]

/-- C7 counterexample: at a concrete launch, the scope query parameter of the
authorization redirect is the "+"-joined scope list, which differs from the
space-joined list the claim states. -/
theorem claim_c7_counterexample :
    (authorize_builder sampleReadyState sampleAuthUrl "https://ehr.example" "L1"
        sampleChallenge.as_str sampleUuid).params.getLast?
      = some ("scope",
          "patient/Patient.read+patient/Observation.read+launch+launch/patient+online_access+openid+profile")
    ∧ "patient/Patient.read+patient/Observation.read+launch+launch/patient+online_access+openid+profile"
      ≠ String.intercalate " " desired_scopes := by
  exact ⟨by decide, by decide⟩

/-- C7 witness: the redirect and its parameter list at a concrete launch. -/
theorem claim_c7_witness :
    ((launch sampleLaunchState "https://ehr.example" "L1" (some sampleIssuerConfig)
        sampleUrlParse sampleChallenge sampleVerifier sampleUuid).1
      = LaunchResponse.seeOther (authorize_url sampleReadyState sampleAuthUrl
          "https://ehr.example" "L1" sampleChallenge.as_str sampleUuid))
    ∧ ((authorize_builder sampleReadyState sampleAuthUrl "https://ehr.example" "L1"
          sampleChallenge.as_str sampleUuid).params
        = [("response_type", "code"), ("client_id", "cid"),
           ("redirect_uri", "http://localhost:8080/callback"), ("launch", "L1"),
           ("state", sampleUuid.toString), ("aud", "https://ehr.example"),
           ("code_challenge", sampleChallenge.as_str),
           ("code_challenge_method", "S256"),
           ("scope",
            "patient/Patient.read+patient/Observation.read+launch+launch/patient+online_access+openid+profile")]) := by
  have h := claim_c7_redirect_parameters sampleLaunchState "https://ehr.example" "L1"
    sampleIssuerConfig "https://ehr.example/auth" sampleAuthUrl sampleUrlParse
    sampleChallenge sampleVerifier sampleUuid rfl rfl
  exact ⟨h.1, h.2.2.2.2⟩

/-- C8: callback response mapping. A state parameter that is not a well-formed
UUID yields 400 with no transaction-store lookup at all (and an unchanged
state); a well-formed but unknown state yields 400; a failed code exchange
yields 403 with no token record written and the token store unchanged; a
present PKCE pair with a missing issuer entry or missing cached configuration
yields 500; and a 200 response implies the resulting token record was stored. -/
theorem claim_c8_callback_responses (st : State) (code sp : String)
    (outcome : Option TokenResponse) (now : Nat) :
    (Uuid.parse sp = none →
      callback st code sp outcome now
        = { response := some CallbackStatus.badRequest, st := st, pkce_lookups := 0,
            iss_lookups := 0, post_calls := 0, token_written := false })
    ∧ (∀ u : Uuid, Uuid.parse sp = some u → st.pkce.lookup u = none →
        (callback st code sp outcome now).response = some CallbackStatus.badRequest
        ∧ (callback st code sp outcome now).token_written = false)
    ∧ (∀ (u : Uuid) (pv : PkceCodeChallenge × PkceCodeVerifier) (issUrl : String)
        (cfg : SmartConfiguration),
        Uuid.parse sp = some u → st.pkce.lookup u = some pv →
        st.iss.lookup u = some issUrl → st.smart_configurations.lookup issUrl = some cfg →
        outcome = none →
        (callback st code sp outcome now).response = some CallbackStatus.forbidden
        ∧ (callback st code sp outcome now).token_written = false
        ∧ (callback st code sp outcome now).st.tokens = st.tokens)
    ∧ (∀ (u : Uuid) (pv : PkceCodeChallenge × PkceCodeVerifier),
        Uuid.parse sp = some u → st.pkce.lookup u = some pv →
        st.iss.lookup u = none →
        (callback st code sp outcome now).response = some CallbackStatus.internalServerError
        ∧ (callback st code sp outcome now).token_written = false)
    ∧ (∀ (u : Uuid) (pv : PkceCodeChallenge × PkceCodeVerifier) (issUrl : String),
        Uuid.parse sp = some u → st.pkce.lookup u = some pv →
        st.iss.lookup u = some issUrl → st.smart_configurations.lookup issUrl = none →
        (callback st code sp outcome now).response = some CallbackStatus.internalServerError
        ∧ (callback st code sp outcome now).token_written = false)
    ∧ ((callback st code sp outcome now).response = some CallbackStatus.ok →
        (callback st code sp outcome now).token_written = true
        ∧ ∃ tok : Token,
            (callback st code sp outcome now).st.tokens.lookup tok.patient = some tok) := by
  refine ⟨?_, ?_, ?_, ?_, ?_, ?_⟩
  · intro h
    simp [callback, h]
  · intro u hu hpk
    simp [callback, hu, State.get_pkce, AssocMap.remove, hpk]
  · intro u pv issUrl cfg hu hpk hiss hcfg hout
    subst hout
    simp [callback, hu, State.get_pkce, State.get_iss_and_config, State.get_iss,
      AssocMap.remove, hpk, hiss, hcfg, Token.post]
  · intro u pv hu hpk hiss
    simp [callback, hu, State.get_pkce, State.get_iss_and_config, State.get_iss,
      AssocMap.remove, hpk, hiss]
  · intro u pv issUrl hu hpk hiss hcfg
    simp [callback, hu, State.get_pkce, State.get_iss_and_config, State.get_iss,
      AssocMap.remove, hpk, hiss, hcfg]
  · intro hok
    cases hparse : Uuid.parse sp with
    | none => simp [callback, hparse] at hok
    | some u =>
      cases hpk : st.pkce.lookup u with
      | none =>
        simp [callback, hparse, State.get_pkce, AssocMap.remove, hpk] at hok
      | some pv =>
        cases hiss : st.iss.lookup u with
        | none =>
          simp [callback, hparse, State.get_pkce, State.get_iss_and_config, State.get_iss,
            AssocMap.remove, hpk, hiss] at hok
        | some issUrl =>
          cases hcfg : st.smart_configurations.lookup issUrl with
          | none =>
            simp [callback, hparse, State.get_pkce, State.get_iss_and_config, State.get_iss,
              AssocMap.remove, hpk, hiss, hcfg] at hok
          | some cfg =>
            cases outcome with
            | none =>
              simp [callback, hparse, State.get_pkce, State.get_iss_and_config, State.get_iss,
                AssocMap.remove, hpk, hiss, hcfg, Token.post] at hok
            | some r =>
              cases hI : cfg.issuer with
              | none =>
                simp [callback, hparse, State.get_pkce, State.get_iss_and_config,
                  State.get_iss, AssocMap.remove, hpk, hiss, hcfg, Token.post, hI] at hok
              | some issuerUrl =>
                constructor
                · simp [callback, hparse, State.get_pkce, State.get_iss_and_config,
                    State.get_iss, AssocMap.remove, hpk, hiss, hcfg, Token.post, hI]
                · simp [callback, hparse, State.get_pkce, State.get_iss_and_config,
                    State.get_iss, AssocMap.remove, hpk, hiss, hcfg, Token.post, hI,
                    State.put_token]
                  exact Exists.intro
                    { smart_configuration := cfg,
                      base64_secret := _,
                      token := TokenContents.from_response r now,
                      patient := r.patient,
                      iss := issuerUrl }
                    (AssocMap.lookup_insert_self st.tokens r.patient _)

/-- C8 witness: the response mapping at concrete callbacks — malformed state,
unknown state, failed exchange, and successful exchange. -/
theorem claim_c8_witness :
    (callback sampleReadyState "x" "not-a-uuid" none 5
      = { response := some CallbackStatus.badRequest, st := sampleReadyState,
          pkce_lookups := 0, iss_lookups := 0, post_calls := 0, token_written := false })
    ∧ ((callback sampleLaunchState "x" sampleUuidString none 5).response
        = some CallbackStatus.badRequest)
    ∧ ((callback sampleReadyState "x" sampleUuidString none 5).response
        = some CallbackStatus.forbidden)
    ∧ ((callback sampleReadyState "x" sampleUuidString none 5).token_written = false)
    ∧ ((callback sampleReadyState "x" sampleUuidString (some sampleTokenResponse)
        5).token_written = true) := by
  refine ⟨?_, ?_, ?_, ?_, ?_⟩
  · exact (claim_c8_callback_responses sampleReadyState "x" "not-a-uuid" none 5).1 (by decide)
  · exact ((claim_c8_callback_responses sampleLaunchState "x" sampleUuidString none 5).2.1
      sampleUuid (by decide) (by decide)).1
  · exact ((claim_c8_callback_responses sampleReadyState "x" sampleUuidString none 5).2.2.1
      sampleUuid (sampleChallenge, sampleVerifier) "https://ehr.example" sampleIssuerConfig
      (by decide) (by decide) (by decide) (by decide) rfl).1
  · exact ((claim_c8_callback_responses sampleReadyState "x" sampleUuidString none 5).2.2.1
      sampleUuid (sampleChallenge, sampleVerifier) "https://ehr.example" sampleIssuerConfig
      (by decide) (by decide) (by decide) (by decide) rfl).2.1
  · exact ((claim_c8_callback_responses sampleReadyState "x" sampleUuidString
      (some sampleTokenResponse) 5).2.2.2.2.2 (by decide)).1

/-- C10: consumption happens even on failing callbacks. For every callback
whose state parses to a UUID present in the PKCE map, the handler
destructively removes the PKCE entry and the issuer entry for that UUID no
matter how the request ends, and replaying the identical callback afterwards
yields 400 with no outbound exchange request and no token written. -/
theorem claim_c10_destructive_consumption (st : State) (code sp : String) (u : Uuid)
    (pv : PkceCodeChallenge × PkceCodeVerifier) (outcome : Option TokenResponse) (now : Nat)
    (hu : Uuid.parse sp = some u) (hpk : st.pkce.lookup u = some pv) :
    ((callback st code sp outcome now).st.pkce.lookup u = none)
    ∧ ((callback st code sp outcome now).st.iss.lookup u = none)
    ∧ (∀ (code2 : String) (outcome2 : Option TokenResponse) (now2 : Nat),
        (callback (callback st code sp outcome now).st code2 sp outcome2 now2).response
          = some CallbackStatus.badRequest
        ∧ (callback (callback st code sp outcome now).st code2 sp outcome2 now2).post_calls = 0
        ∧ (callback (callback st code sp outcome now).st code2 sp outcome2
            now2).token_written = false) := by
  have hkey : ((callback st code sp outcome now).st.pkce.lookup u = none)
      ∧ ((callback st code sp outcome now).st.iss.lookup u = none) := by
    cases hiss : st.iss.lookup u with
    | none =>
      simp [callback, hu, State.get_pkce, State.get_iss_and_config, State.get_iss,
        AssocMap.remove, hpk, hiss, AssocMap.lookup_eraseKey_self]
    | some issUrl =>
      cases hcfg : st.smart_configurations.lookup issUrl with
      | none =>
        simp [callback, hu, State.get_pkce, State.get_iss_and_config, State.get_iss,
          AssocMap.remove, hpk, hiss, hcfg, AssocMap.lookup_eraseKey_self]
      | some cfg =>
        cases outcome with
        | none =>
          simp [callback, hu, State.get_pkce, State.get_iss_and_config, State.get_iss,
            AssocMap.remove, hpk, hiss, hcfg, Token.post, AssocMap.lookup_eraseKey_self]
        | some r =>
          cases hI : cfg.issuer with
          | none =>
            simp [callback, hu, State.get_pkce, State.get_iss_and_config, State.get_iss,
              AssocMap.remove, hpk, hiss, hcfg, Token.post, hI,
              AssocMap.lookup_eraseKey_self]
          | some issuerUrl =>
            simp [callback, hu, State.get_pkce, State.get_iss_and_config, State.get_iss,
              AssocMap.remove, hpk, hiss, hcfg, Token.post, hI, State.put_token,
              AssocMap.lookup_eraseKey_self]
  refine ⟨hkey.1, hkey.2, ?_⟩
  intro code2 outcome2 now2
  have hk1 := hkey.1
  set st2 := (callback st code sp outcome now).st with hst2
  refine ⟨?_, ?_, ?_⟩ <;>
    simp [callback, hu, State.get_pkce, AssocMap.remove, hk1]

/-- C10 witness: a concrete failing callback consumes the transaction and its
replay is rejected with 400. -/
theorem claim_c10_witness :
    ((callback sampleReadyState "x" sampleUuidString none 5).st.pkce.lookup sampleUuid = none)
    ∧ ((callback sampleReadyState "x" sampleUuidString none 5).st.iss.lookup sampleUuid = none)
    ∧ ((callback (callback sampleReadyState "x" sampleUuidString none 5).st "x"
        sampleUuidString none 6).response = some CallbackStatus.badRequest) := by
  have h := claim_c10_destructive_consumption sampleReadyState "x" sampleUuidString sampleUuid
    (sampleChallenge, sampleVerifier) none 5 (by decide) (by decide)
  exact ⟨h.1, h.2.1, (h.2.2 "x" none 6).1⟩
